import Mathlib

/-!
Verification development for the `lmb-engine-simulator` crate.

The Rust sources are shallowly embedded: `f64` arithmetic is modelled by real
arithmetic (`ℝ`), `Vec`s of fixed known length by tuples or lists, fallible
paths (`std::process::exit`, construction errors) by `Option`.  Every
definition mirrors the function of the same name in the Rust sources
(`src/connector/zero_dim_conn.rs`, `src/connector/valve.rs`,
`src/core/system.rs`, `src/reaction/gas.rs`, `src/reaction/thermo.rs`,
`src/reaction/combustion.rs`, `src/numerics/ode_solvers.rs`,
`src/zero_dim/reservoir.rs`, `src/base/constants.rs`).
-/

namespace Lmb

/-- Physical constants from `src/base/constants.rs`. -/
def constants.T_REF : ℝ := 298.15

/-- Reference pressure [Pa], `src/base/constants.rs`. -/
def constants.P_REF : ℝ := 101325.0

/-- Universal gas constant [J/kmol/K], `src/base/constants.rs`. -/
def constants.R : ℝ := 8314.4621

/-- `FlowRatio` from `src/lib.rs`: signed mass and enthalpy flow. -/
structure FlowRatio where
  mass_flow : ℝ
  enthalpy_flow : ℝ

/-- `FlowRatio::new()`: the zero flow. -/
def FlowRatio.new : FlowRatio := ⟨0, 0⟩

/-- `BasicProperties` from `src/lib.rs`: the state a control volume reports. -/
structure BasicProperties where
  name : String
  pressure : ℝ
  temperature : ℝ
  cp : ℝ
  cv : ℝ
  cp_cv : ℝ
  gas_const : ℝ
  crank_angle : Option ℝ

/-- Subsonic branch of the quasi-steady compressible-orifice mass-flow
formula shared by `ZeroDimConn::update_flow_ratio` and
`Valve::update_flow_ratio` (`P_du` is the downstream/upstream pressure
ratio). -/
noncomputable def mdot_subsonic (cd area P_up T_up k R P_du : ℝ) : ℝ :=
  cd * area * P_up / Real.sqrt (R * T_up) *
    Real.sqrt (2 * k / (k - 1) * (P_du ^ ((2 : ℝ) / k) - P_du ^ ((k + 1) / k)))

/-- Choked branch of the shared mass-flow formula (independent of the
downstream pressure). -/
noncomputable def mdot_choked (cd area P_up T_up k R : ℝ) : ℝ :=
  cd * area * P_up / Real.sqrt (R * T_up) *
    Real.sqrt (k * (2 / (k + 1)) ^ ((k + 1) / (k - 1)))

/-- The `m_dot` computation of both connectors: subsonic when
`P_down/P_up > (2/(k+1))^(k/(k-1))`, choked otherwise. -/
noncomputable def mdot_compressible (cd area P_up T_up k R P_down : ℝ) : ℝ :=
  let P_du := P_down / P_up
  if P_du > (2 / (k + 1)) ^ (k / (k - 1)) then
    mdot_subsonic cd area P_up T_up k R P_du
  else
    mdot_choked cd area P_up T_up k R

/-- `ZeroDimConn` (orifice connector), `src/connector/zero_dim_conn.rs`.
The constructor enforces exactly two endpoints, so `connecting` and
`flow_ratio` are pairs. -/
structure ZeroDimConn where
  name : String
  area : ℝ
  discharge_coeff : ℝ
  connecting : String × String
  flow_ratio : FlowRatio × FlowRatio

/-- `Vec::position` over the two-element `connecting` vector. -/
def position2 (pair : String × String) (n : String) : Option ℕ :=
  if pair.1 = n then some 0 else if pair.2 = n then some 1 else none

/-- Read the flow-ratio entry at index `i` (0 or 1). -/
def get2 (fr : FlowRatio × FlowRatio) (i : ℕ) : FlowRatio :=
  if i = 0 then fr.1 else fr.2

/-- Write the flow-ratio entry at index `i` (0 or 1). -/
def set2 (fr : FlowRatio × FlowRatio) (i : ℕ) (f : FlowRatio) :
    FlowRatio × FlowRatio :=
  if i = 0 then (f, fr.2) else (fr.1, f)

/-- The part of `ZeroDimConn::update_flow_ratio` that runs once the upstream
and downstream endpoints are determined: compute `m_dot`, post
`(-m_dot, -m_dot*k*R/(k-1)*T_up)` at the upstream endpoint and its exact
negation at the downstream endpoint.  A failed name lookup is
`std::process::exit`, modelled as `none`. -/
noncomputable def ZeroDimConn.post (c : ZeroDimConn) (up down : BasicProperties) :
    Option ZeroDimConn :=
  let P_up := up.pressure
  let T_up := up.temperature
  let k := up.cp_cv
  let R := up.gas_const
  let P_down := down.pressure
  let km := k - 1
  let m_dot := mdot_compressible c.discharge_coeff c.area P_up T_up k R P_down
  match position2 c.connecting up.name with
  | none => none
  | some i =>
    let fr1 := set2 c.flow_ratio i ⟨-m_dot, -m_dot * k * R / km * T_up⟩
    match position2 c.connecting down.name with
    | none => none
    | some j =>
      some { c with
        flow_ratio :=
          set2 fr1 j ⟨-(get2 fr1 i).mass_flow, -(get2 fr1 i).enthalpy_flow⟩ }

/-- `ZeroDimConn::update_flow_ratio`: flow direction from the pressure ratio
with the source's dead band; at equilibrium both entries are reset to the
zero `FlowRatio`. -/
noncomputable def ZeroDimConn.update_flow_ratio (c : ZeroDimConn)
    (prop0 prop1 : BasicProperties) : Option ZeroDimConn :=
  let press_ratio := prop0.pressure / prop1.pressure
  if press_ratio > 1.00000001 then
    ZeroDimConn.post c prop0 prop1
  else if press_ratio < 0.99999991 then
    ZeroDimConn.post c prop1 prop0
  else
    some { c with flow_ratio := (FlowRatio.new, FlowRatio.new) }

/-- `ValveLift` from `src/connector/valve.rs`: the coefficients of the
piecewise-quadratic lift/diameter profile.  `consts` is split into its seven
named entries `a1, b1, b2, b3, c1, c2, c3` and `intervals` into
`interval0, interval1`. -/
structure ValveLift where
  time_opened : ℝ
  acceler_ratio : ℝ
  max_lift_diam_ratio : ℝ
  a1 : ℝ
  b1 : ℝ
  b2 : ℝ
  b3 : ℝ
  c1 : ℝ
  c2 : ℝ
  c3 : ℝ
  interval0 : ℝ
  interval1 : ℝ

/-- `ValveLift::new`: the fixed acceleration ratio is `-2.0`. -/
noncomputable def ValveLift.new (max_lift_diam_ratio time_opened : ℝ) : ValveLift :=
  let acceler_ratio : ℝ := -2.0
  let a1 := 4.0 * max_lift_diam_ratio * (1.0 - acceler_ratio) / time_opened ^ 2
  let b1 := a1 / acceler_ratio
  let b2 := -b1 * time_opened
  let b3 := -b2 * time_opened * (1.0 / (4.0 * (1.0 - acceler_ratio)))
  let c1 := a1
  let c2 := -2.0 * a1 * time_opened
  let c3 := a1 * time_opened * time_opened
  let n := 2.0 * (1.0 - acceler_ratio)
  { time_opened := time_opened
    acceler_ratio := acceler_ratio
    max_lift_diam_ratio := max_lift_diam_ratio
    a1 := a1, b1 := b1, b2 := b2, b3 := b3, c1 := c1, c2 := c2, c3 := c3
    interval0 := time_opened / n
    interval1 := (n - 1.0) * time_opened / n }

/-- `ValveLift::calc_lift`: lift over diameter as a function of the angle
since opening (crank-angle degrees), three quadratic segments. -/
noncomputable def ValveLift.calc_lift (vl : ValveLift) (angle : ℝ) : ℝ :=
  if angle ≤ vl.interval0 then
    vl.a1 * angle * angle
  else if angle ≥ vl.interval1 then
    vl.c1 * angle * angle + vl.c2 * angle + vl.c3
  else
    vl.b1 * angle * angle + vl.b2 * angle + vl.b3

/-- `Valve` from `src/connector/valve.rs`.  `flow_ratio` entry 0 is always
the cylinder (set at construction); the connector has exactly two endpoints
once built, so the keyed vector is a pair. -/
structure Valve where
  name : String
  angle : ℝ
  opening_angle : ℝ
  closing_angle : ℝ
  delta_angle : ℝ
  diameter : ℝ
  area : ℝ
  max_lift : ℝ
  valve_lift : ValveLift
  throat_area : ℝ
  flow_ratio : (String × FlowRatio) × (String × FlowRatio)
  backflow_mass : ℝ
  connecting : String × String

/-- `Valve::default_discharge_coeff`: direction-dependent quartic in
lift/diameter, scaled by `area/throat_area`; zero for a negligible throat. -/
noncomputable def Valve.default_discharge_coeff
    (lift_diam area throat_area : ℝ) (direction : String) : ℝ :=
  if throat_area < 1e-10 then 0.0
  else if direction = "forward" then
    let cd_norm := 70.60033 * lift_diam ^ 4
      + -53.48961 * lift_diam ^ 3
      + 8.324442 * lift_diam ^ 2
      + 2.341224 * lift_diam
    cd_norm * area / throat_area
  else
    let cd_norm := 58.48379 * lift_diam ^ 4
      + -41.68971 * lift_diam ^ 3
      + 4.793636 * lift_diam ^ 2
      + 2.759528 * lift_diam
    cd_norm * area / throat_area

/-- `Valve::calc_throat_area`: curtain area from lift/diameter via three
geometric regimes. -/
noncomputable def Valve.calc_throat_area (v : Valve) (lift_diam : ℝ) : ℝ :=
  let lift := lift_diam * v.diameter
  if lift_diam ≤ 0.125 then
    2.22144146908 * lift * (v.diameter + 0.5 * lift)
  else if lift_diam ≤ 0.274049 then
    3.33794219444 * v.diameter *
      Real.sqrt (lift * lift - 0.125 * lift * v.diameter
        + 0.0078125 * v.diameter * v.diameter)
  else
    0.73631077818 * v.diameter * v.diameter

/-- `Valve::is_open`: the opening window test, handling windows that
straddle the 0/720-degree wrap (`delta_angle < 0`). -/
noncomputable def Valve.is_open (v : Valve) (chank_angle : ℝ) : Bool :=
  if v.delta_angle < 0.0 then
    if chank_angle < v.opening_angle ∧ chank_angle > v.closing_angle then
      false
    else
      true
  else
    if chank_angle < v.opening_angle ∨ chank_angle > v.closing_angle then
      false
    else
      true

/-- `Valve::set_flow_to_zero`: reset both keyed entries to the zero flow. -/
def Valve.set_flow_to_zero (v : Valve) : Valve :=
  { v with flow_ratio :=
      ((v.flow_ratio.1.1, FlowRatio.new), (v.flow_ratio.2.1, FlowRatio.new)) }

/-- `Vec::position` over the keyed two-entry `flow_ratio` vector. -/
def positionK (fr : (String × FlowRatio) × (String × FlowRatio)) (n : String) :
    Option ℕ :=
  if fr.1.1 = n then some 0 else if fr.2.1 = n then some 1 else none

/-- Read the keyed flow-ratio entry at index `i` (0 or 1). -/
def getK (fr : (String × FlowRatio) × (String × FlowRatio)) (i : ℕ) :
    FlowRatio :=
  if i = 0 then fr.1.2 else fr.2.2

/-- Write the keyed flow-ratio entry at index `i` (0 or 1), keeping keys. -/
def setK (fr : (String × FlowRatio) × (String × FlowRatio)) (i : ℕ)
    (f : FlowRatio) : (String × FlowRatio) × (String × FlowRatio) :=
  if i = 0 then ((fr.1.1, f), fr.2) else (fr.1, (fr.2.1, f))

/-- The temperature `Valve.post` feeds into the flow formulas
(`valve.rs` 238-251): the plain upstream temperature, except a 50/50 blend
with the downstream one when backflow debt is positive and the cylinder
(`flow_ratio[0]`) is the downstream endpoint. -/
noncomputable def Valve.blend_temp (v : Valve) (up down : BasicProperties) : ℝ :=
  let up_frac : ℝ := 0.5
  let down_frac : ℝ := 1.0 - up_frac
  if v.backflow_mass > 0.0 ∧ down.name = v.flow_ratio.1.1 then
    up_frac * up.temperature + down_frac * down.temperature
  else up.temperature

/-- The `cp/cv` ratio `Valve.post` feeds into the flow formulas (blended
exactly like the temperature). -/
noncomputable def Valve.blend_k (v : Valve) (up down : BasicProperties) : ℝ :=
  let up_frac : ℝ := 0.5
  let down_frac : ℝ := 1.0 - up_frac
  if v.backflow_mass > 0.0 ∧ down.name = v.flow_ratio.1.1 then
    up_frac * up.cp_cv + down_frac * down.cp_cv
  else up.cp_cv

/-- The gas constant `Valve.post` feeds into the flow formulas (blended
exactly like the temperature). -/
noncomputable def Valve.blend_R (v : Valve) (up down : BasicProperties) : ℝ :=
  let up_frac : ℝ := 0.5
  let down_frac : ℝ := 1.0 - up_frac
  if v.backflow_mass > 0.0 ∧ down.name = v.flow_ratio.1.1 then
    up_frac * up.gas_const + down_frac * down.gas_const
  else up.gas_const

/-- The part of `Valve::update_flow_ratio` that runs once the valve is known
to be open and the upstream/downstream endpoints are determined: the
backflow 50/50 blend of the upstream state (when backflow debt is positive
and the cylinder is downstream), the discharge coefficient, `m_dot`, the
two posted `FlowRatio`s, and the backflow-mass accumulator update. -/
noncomputable def Valve.post (v : Valve) (up down : BasicProperties)
    (lift_diam thoat_area dt : ℝ) : Option Valve :=
  let T_up := Valve.blend_temp v up down
  let k := Valve.blend_k v up down
  let R := Valve.blend_R v up down
  let P_up := up.pressure
  let P_down := down.pressure
  let km := k - 1.0
  let direction := if down.name = v.connecting.1 then "forward" else "backward"
  let cd := Valve.default_discharge_coeff lift_diam v.area thoat_area direction
  let m_dot := mdot_compressible cd thoat_area P_up T_up k R P_down
  match positionK v.flow_ratio up.name with
  | none => none
  | some i =>
    let fr1 := setK v.flow_ratio i ⟨-m_dot, -m_dot * k * R / km * T_up⟩
    match positionK fr1 down.name with
    | none => none
    | some j =>
      let fr2 := setK fr1 j ⟨-(getK fr1 i).mass_flow, -(getK fr1 i).enthalpy_flow⟩
      let backflow := v.backflow_mass + -(getK fr2 0).mass_flow * dt
      some { v with
        flow_ratio := fr2
        backflow_mass := if backflow < 0.0 then 0.0 else backflow }

/-- Body of `Valve::update_flow_ratio` once the crank angle (radians) has
been extracted: convert to degrees, zero everything when the valve is
closed, otherwise compute lift and throat area, determine the flow
direction with the source's dead band, and delegate to `Valve.post`. -/
noncomputable def Valve.update_with_crank (v : Valve)
    (prop0 prop1 : BasicProperties) (dt crank_rad : ℝ) : Option Valve :=
  let crank_angle := crank_rad * (180 / Real.pi)
  let v1 : Valve := { v with angle := crank_angle }
  if v1.is_open crank_angle then
    let delta := crank_angle - v1.opening_angle
    let angle := if delta ≥ 0.0 then delta else delta + 720.0
    let lift_diam := v1.valve_lift.calc_lift angle
    let thoat_area := v1.calc_throat_area lift_diam
    let v2 : Valve := { v1 with throat_area := thoat_area }
    let press_ratio := prop0.pressure / prop1.pressure
    if press_ratio > 1.000000001 then
      Valve.post v2 prop0 prop1 lift_diam thoat_area dt
    else if press_ratio < 0.999999991 then
      Valve.post v2 prop1 prop0 lift_diam thoat_area dt
    else
      some v2.set_flow_to_zero
  else
    some { v1.set_flow_to_zero with throat_area := 0.0, backflow_mass := 0.0 }

/-- `Valve::update_flow_ratio`: extract the crank angle (the source loop
keeps the last `Some` among the endpoint states) and run
`Valve.update_with_crank`.  A missing crank angle is `std::process::exit`,
modelled as `none`. -/
noncomputable def Valve.update_flow_ratio (v : Valve)
    (prop0 prop1 : BasicProperties) (dt : ℝ) : Option Valve :=
  match (match prop1.crank_angle with
    | some a => some a
    | none => prop0.crank_angle) with
  | none => none
  | some crank_rad => v.update_with_crank prop0 prop1 dt crank_rad

/-- Both `FlowRatio`s posted by `ZeroDimConn.post` are exact negations of
each other, whenever the call does not abort. -/
lemma ZeroDimConn.post_negation_orifice (c : ZeroDimConn) (up down : BasicProperties)
    (c' : ZeroDimConn) (hne : up.name ≠ down.name)
    (h : ZeroDimConn.post c up down = some c') :
    c'.flow_ratio.2.mass_flow = -c'.flow_ratio.1.mass_flow ∧
      c'.flow_ratio.2.enthalpy_flow = -c'.flow_ratio.1.enthalpy_flow := by
  simp only [ZeroDimConn.post] at h
  split at h
  · exact Option.noConfusion h
  · rename_i i heq1
    split at h
    · exact Option.noConfusion h
    · rename_i j heq2
      cases h
      unfold position2 at heq1 heq2
      split_ifs at heq1 with hA hB
      · cases heq1
        split_ifs at heq2 with hC hD
        · exact absurd (hA.symm.trans hC) hne
        · cases heq2
          simp [set2, get2]
      · cases heq1
        split_ifs at heq2 with hC hD
        · cases heq2
          simp [set2, get2]
        · exact absurd (hB.symm.trans hD) hne

/-- Characterisation of a successful `positionK` lookup. -/
lemma positionK_eq_some (fr : (String × FlowRatio) × (String × FlowRatio))
    (n : String) (i : ℕ) (h : positionK fr n = some i) :
    (i = 0 ∧ fr.1.1 = n) ∨ (i = 1 ∧ fr.2.1 = n) := by
  unfold positionK at h
  split_ifs at h with hA hB
  · cases h
    exact Or.inl ⟨rfl, hA⟩
  · cases h
    exact Or.inr ⟨rfl, hB⟩

/-- `setK` never changes the key of entry 0. -/
lemma setK_key1 (fr : (String × FlowRatio) × (String × FlowRatio)) (i : ℕ)
    (f : FlowRatio) : (setK fr i f).1.1 = fr.1.1 := by
  unfold setK
  split_ifs <;> rfl

/-- `setK` never changes the key of entry 1. -/
lemma setK_key2 (fr : (String × FlowRatio) × (String × FlowRatio)) (i : ℕ)
    (f : FlowRatio) : (setK fr i f).2.1 = fr.2.1 := by
  unfold setK
  split_ifs <;> rfl

/-- Both `FlowRatio`s posted by `Valve.post` are exact negations of each
other, whenever the call does not abort. -/
lemma Valve.post_negation_valve (v : Valve) (up down : BasicProperties)
    (lift_diam thoat_area dt : ℝ) (v' : Valve) (hne : up.name ≠ down.name)
    (h : Valve.post v up down lift_diam thoat_area dt = some v') :
    v'.flow_ratio.2.2.mass_flow = -v'.flow_ratio.1.2.mass_flow ∧
      v'.flow_ratio.2.2.enthalpy_flow = -v'.flow_ratio.1.2.enthalpy_flow := by
  simp only [Valve.post] at h
  split at h
  · exact Option.noConfusion h
  · rename_i i heq1
    split at h
    · exact Option.noConfusion h
    · rename_i j heq2
      cases h
      rcases positionK_eq_some _ _ _ heq1 with ⟨rfl, hA⟩ | ⟨rfl, hA⟩
      · rcases positionK_eq_some _ _ _ heq2 with ⟨rfl, hC⟩ | ⟨rfl, hC⟩
        · rw [setK_key1] at hC
          exact absurd (hA.symm.trans hC) hne
        · simp [setK, getK]
      · rcases positionK_eq_some _ _ _ heq2 with ⟨rfl, hC⟩ | ⟨rfl, hC⟩
        · simp [setK, getK]
        · rw [setK_key2] at hC
          exact absurd (hA.symm.trans hC) hne

/-- Negation property through `ZeroDimConn.update_flow_ratio`, covering the
dead-band (both zero) branch as well. -/
lemma ZeroDimConn.update_negation_orifice (c : ZeroDimConn) (p0 p1 : BasicProperties)
    (c' : ZeroDimConn) (hne : p0.name ≠ p1.name)
    (h : c.update_flow_ratio p0 p1 = some c') :
    c'.flow_ratio.2.mass_flow = -c'.flow_ratio.1.mass_flow ∧
      c'.flow_ratio.2.enthalpy_flow = -c'.flow_ratio.1.enthalpy_flow := by
  simp only [ZeroDimConn.update_flow_ratio] at h
  split_ifs at h with hgt hlt
  · exact ZeroDimConn.post_negation_orifice c p0 p1 c' hne h
  · exact ZeroDimConn.post_negation_orifice c p1 p0 c' (Ne.symm hne) h
  · cases h
    simp [FlowRatio.new]

/-- Negation property through `Valve.update_with_crank`, covering the
closed-valve and dead-band (both zero) branches as well. -/
lemma Valve.update_crank_negation (v : Valve) (p0 p1 : BasicProperties)
    (dt a : ℝ) (v' : Valve) (hne : p0.name ≠ p1.name)
    (h : v.update_with_crank p0 p1 dt a = some v') :
    v'.flow_ratio.2.2.mass_flow = -v'.flow_ratio.1.2.mass_flow ∧
      v'.flow_ratio.2.2.enthalpy_flow = -v'.flow_ratio.1.2.enthalpy_flow := by
  simp only [Valve.update_with_crank] at h
  split_ifs at h <;>
    first
      | exact Valve.post_negation_valve _ p0 p1 _ _ dt v' hne h
      | exact Valve.post_negation_valve _ p1 p0 _ _ dt v' (Ne.symm hne) h
      | (cases h; simp [Valve.set_flow_to_zero, FlowRatio.new])

/-- Negation property through `Valve.update_flow_ratio`. -/
lemma Valve.update_negation_valve (v : Valve) (p0 p1 : BasicProperties) (dt : ℝ)
    (v' : Valve) (hne : p0.name ≠ p1.name)
    (h : v.update_flow_ratio p0 p1 dt = some v') :
    v'.flow_ratio.2.2.mass_flow = -v'.flow_ratio.1.2.mass_flow ∧
      v'.flow_ratio.2.2.enthalpy_flow = -v'.flow_ratio.1.2.enthalpy_flow := by
  unfold Valve.update_flow_ratio at h
  split at h
  · exact Option.noConfusion h
  · exact Valve.update_crank_negation v p0 p1 dt _ v' hne h

/-- C1: for every connector (`ZeroDimConn` and `Valve`) and every
non-aborting call to `update_flow_ratio` with two endpoint states carrying
distinct names, the `FlowRatio` posted for the downstream endpoint is the
exact negation of the one posted for the upstream endpoint, in both
`mass_flow` and `enthalpy_flow`; in the zero-flow branches both endpoints
hold the zero `FlowRatio`, so the negation holds there too.  Consequently
`flowTo(A).mass_flow = -flowTo(B).mass_flow` always holds. -/
theorem C1_flow_conservation :
    (∀ (c : ZeroDimConn) (p0 p1 : BasicProperties) (c' : ZeroDimConn),
      p0.name ≠ p1.name →
      c.update_flow_ratio p0 p1 = some c' →
      c'.flow_ratio.2.mass_flow = -c'.flow_ratio.1.mass_flow ∧
        c'.flow_ratio.2.enthalpy_flow = -c'.flow_ratio.1.enthalpy_flow) ∧
    (∀ (v : Valve) (p0 p1 : BasicProperties) (dt : ℝ) (v' : Valve),
      p0.name ≠ p1.name →
      v.update_flow_ratio p0 p1 dt = some v' →
      v'.flow_ratio.2.2.mass_flow = -v'.flow_ratio.1.2.mass_flow ∧
        v'.flow_ratio.2.2.enthalpy_flow = -v'.flow_ratio.1.2.enthalpy_flow) :=
  ⟨fun c p0 p1 c' hne h => ZeroDimConn.update_negation_orifice c p0 p1 c' hne h,
   fun v p0 p1 dt v' hne h => Valve.update_negation_valve v p0 p1 dt v' hne h⟩

/-- Concrete orifice used by the C1 witness. -/
noncomputable def orificeW : ZeroDimConn :=
  ⟨"orifice", 1, 0.9, ("amb", "res"), (FlowRatio.new, FlowRatio.new)⟩

/-- Concrete endpoint state (equal pressures: dead band). -/
noncomputable def pW0 : BasicProperties :=
  ⟨"amb", 101325, 293, 1004, 717, 1.4, 287, none⟩

/-- Concrete endpoint state (equal pressures: dead band). -/
noncomputable def pW1 : BasicProperties :=
  ⟨"res", 101325, 293, 1004, 717, 1.4, 287, none⟩

/-- The orifice after the dead-band update: both entries zeroed. -/
noncomputable def orificeW' : ZeroDimConn :=
  { orificeW with flow_ratio := (FlowRatio.new, FlowRatio.new) }

/-- Concrete valve used by the C1 witness (window 10..20 degrees). -/
noncomputable def valveW : Valve :=
  ⟨"valve", 0, 10, 20, 10, 0.03, 0.0007, 0.009, ValveLift.new 0.3 10, 0,
    (("cyl", FlowRatio.new), ("amb", FlowRatio.new)), 0, ("cyl", "amb")⟩

/-- Concrete cylinder state at crank angle π rad = 180 degrees (valve closed). -/
noncomputable def pV0 : BasicProperties :=
  ⟨"cyl", 101325, 293, 1004, 717, 1.4, 287, some Real.pi⟩

/-- Concrete companion endpoint state. -/
noncomputable def pV1 : BasicProperties :=
  ⟨"amb", 201325, 300, 1004, 717, 1.4, 287, none⟩

/-- The valve after the closed-branch update. -/
noncomputable def valveW' : Valve :=
  { valveW with angle := 180 }

lemma orificeW_update : orificeW.update_flow_ratio pW0 pW1 = some orificeW' := by
  norm_num [ZeroDimConn.update_flow_ratio, orificeW, orificeW', pW0, pW1]

lemma valveW_update :
    valveW.update_flow_ratio pV0 pV1 (1 / 100) = some valveW' := by
  have hdeg : Real.pi * (180 / Real.pi) = 180 := by
    rw [mul_comm, div_mul_cancel₀ _ Real.pi_ne_zero]
  unfold Valve.update_flow_ratio
  norm_num [Valve.update_with_crank, Valve.is_open, Valve.set_flow_to_zero,
    valveW, valveW', pV0, pV1, hdeg]

/-- Witness for C1: the conservation theorem applied to a concrete orifice in
its dead band and a concrete closed valve. -/
theorem C1_flow_conservation_witness :
    pW0.name ≠ pW1.name ∧
    orificeW.update_flow_ratio pW0 pW1 = some orificeW' ∧
    (orificeW'.flow_ratio.2.mass_flow = -orificeW'.flow_ratio.1.mass_flow ∧
      orificeW'.flow_ratio.2.enthalpy_flow = -orificeW'.flow_ratio.1.enthalpy_flow) ∧
    pV0.name ≠ pV1.name ∧
    valveW.update_flow_ratio pV0 pV1 (1 / 100) = some valveW' ∧
    (valveW'.flow_ratio.2.2.mass_flow = -valveW'.flow_ratio.1.2.mass_flow ∧
      valveW'.flow_ratio.2.2.enthalpy_flow = -valveW'.flow_ratio.1.2.enthalpy_flow) :=
  ⟨by simp [pW0, pW1], orificeW_update,
    C1_flow_conservation.1 orificeW pW0 pW1 orificeW' (by simp [pW0, pW1])
      orificeW_update,
    by simp [pV0, pV1], valveW_update,
    C1_flow_conservation.2 valveW pV0 pV1 (1 / 100) valveW' (by simp [pV0, pV1])
      valveW_update⟩

lemma crossover_inner_eq (k : ℝ) (hk : 1 < k) :
    2 * k / (k - 1) * (((2 / (k + 1)) ^ (k / (k - 1))) ^ ((2 : ℝ) / k)
        - ((2 / (k + 1)) ^ (k / (k - 1))) ^ ((k + 1) / k))
      = k * (2 / (k + 1)) ^ ((k + 1) / (k - 1)) := by
  have hkp : (0 : ℝ) < k + 1 := by linarith
  have ht : (0 : ℝ) < 2 / (k + 1) := by positivity
  have hkm : k - 1 ≠ 0 := ne_of_gt (by linarith)
  have hk0 : k ≠ 0 := ne_of_gt (by linarith)
  have h1 : ((2 / (k + 1)) ^ (k / (k - 1))) ^ ((2 : ℝ) / k)
      = (2 / (k + 1)) ^ ((2 : ℝ) / (k - 1)) := by
    rw [← Real.rpow_mul ht.le]
    congr 1
    field_simp
    ring
  have h2 : ((2 / (k + 1)) ^ (k / (k - 1))) ^ ((k + 1) / k)
      = (2 / (k + 1)) ^ ((k + 1) / (k - 1)) := by
    rw [← Real.rpow_mul ht.le]
    congr 1
    field_simp
    ring
  have h3 : (2 / (k + 1)) ^ ((k + 1) / (k - 1))
      = (2 / (k + 1)) ^ ((2 : ℝ) / (k - 1)) * (2 / (k + 1)) := by
    have hsum : (k + 1) / (k - 1) = 2 / (k - 1) + 1 := by
      field_simp
      ring
    rw [hsum, Real.rpow_add ht, Real.rpow_one]
  rw [h1, h2, h3]
  have hX : (0 : ℝ) ≤ (2 / (k + 1)) ^ ((2 : ℝ) / (k - 1)) :=
    (Real.rpow_pos_of_pos ht _).le
  field_simp
  ring

/-- C3: for every upstream state with `k > 1`, `R > 0`, `T_up > 0`,
`P_up > 0`, the subsonic branch evaluated at the crossover pressure ratio
`(2/(k+1))^(k/(k-1))` equals the choked branch exactly, as real-arithmetic
expressions of the code's two formulas. -/
theorem C3_crossover_agreement (cd area P_up T_up k R : ℝ)
    (hk : 1 < k) (hR : 0 < R) (hT : 0 < T_up) (hP : 0 < P_up) :
    mdot_subsonic cd area P_up T_up k R ((2 / (k + 1)) ^ (k / (k - 1)))
      = mdot_choked cd area P_up T_up k R := by
  unfold mdot_subsonic mdot_choked
  congr 1
  congr 1
  exact crossover_inner_eq k hk

/-- Witness for C3 at `cd = 0.9`, `area = 1`, `P_up = 101325`, `T_up = 293`,
`k = 1.4`, `R = 287`. -/
theorem C3_crossover_agreement_witness :
    (1 : ℝ) < 1.4 ∧ (0 : ℝ) < 287 ∧ (0 : ℝ) < 293 ∧ (0 : ℝ) < 101325 ∧
    mdot_subsonic 0.9 1 101325 293 1.4 287
        ((2 / (1.4 + 1)) ^ ((1.4 : ℝ) / (1.4 - 1)))
      = mdot_choked 0.9 1 101325 293 1.4 287 :=
  ⟨by norm_num, by norm_num, by norm_num, by norm_num,
    C3_crossover_agreement 0.9 1 101325 293 1.4 287 (by norm_num) (by norm_num)
      (by norm_num) (by norm_num)⟩

/-- `WiebeFunction` from `src/reaction/combustion.rs` (field order `m`, `a`,
`comb_duration` as in the source). -/
structure WiebeFunction where
  m : ℝ
  a : ℝ
  comb_duration : ℝ

/-- `WiebeFunction::burned_mass_frac`: burned mass fraction at `angle` for
ignition angle `ini_combustion`, with the angle difference wrapped by one
`4π` cycle when negative. -/
noncomputable def WiebeFunction.burned_mass_frac (w : WiebeFunction)
    (angle ini_combustion : ℝ) : ℝ :=
  let a := w.a
  let m := w.m
  let comb_duration := w.comb_duration
  let d_angle := if angle - ini_combustion ≥ 0 then angle - ini_combustion
    else angle - ini_combustion + 4 * Real.pi
  1 - Real.exp (-a * (d_angle / comb_duration) ^ (m + 1))

/-- C6 (amended): the burned mass fraction computed by the two-zone model
equals `1 − exp(−a·(d/Δθ)^(m+1))` with `d` the `4π`-wrapped angle
difference, for all parameters; and `Xb(θ_ign) = 0` whenever `Δθ > 0` and
`m + 1 > 0` (for `m = −1` the code returns `1 − exp(−a)` instead). -/
theorem C6_wiebe_burned_fraction :
    (∀ (w : WiebeFunction) (angle ini : ℝ),
      w.burned_mass_frac angle ini =
        1 - Real.exp (-w.a * ((if angle - ini ≥ 0 then angle - ini
          else angle - ini + 4 * Real.pi) / w.comb_duration) ^ (w.m + 1))) ∧
    (∀ (w : WiebeFunction) (ign : ℝ),
      0 < w.comb_duration → 0 < w.m + 1 →
      w.burned_mass_frac ign ign = 0) := by
  constructor
  · intro w angle ini
    rfl
  · intro w ign hd hm
    simp only [WiebeFunction.burned_mass_frac, sub_self, ge_iff_le, le_refl,
      if_true, zero_div, Real.zero_rpow (ne_of_gt hm), mul_zero,
      Real.exp_zero, sub_self]

/-- Witness for C6 at the crate's documented Wiebe parameters
`m = 2`, `a = 6.908`, `Δθ = 0.7` rad. -/
theorem C6_wiebe_burned_fraction_witness :
    (0 : ℝ) < (0.7 : ℝ) ∧ (0 : ℝ) < (2 : ℝ) + 1 ∧
    WiebeFunction.burned_mass_frac ⟨2, 6.908, 0.7⟩ 1 1 = 0 :=
  ⟨by norm_num, by norm_num,
    C6_wiebe_burned_fraction.2 ⟨2, 6.908, 0.7⟩ 1 (by norm_num) (by norm_num)⟩

/-- Counterexample for C6 as stated: at the Wiebe parameter set `a = 1`,
`m = −1`, `Δθ = 1` the burned mass fraction at the ignition angle is
`1 − exp(−1·0^0) = 1 − e⁻¹ ≠ 0`, because `0^(m+1) = 0^0 = 1`. -/
theorem C6_counterexample :
    WiebeFunction.burned_mass_frac ⟨-1, 1, 1⟩ 0 0 ≠ 0 := by
  have hz : ((-1 : ℝ) + 1) = 0 := by norm_num
  simp only [WiebeFunction.burned_mass_frac, sub_self, ge_iff_le, le_refl,
    if_true, zero_div, hz, Real.rpow_zero, mul_one, sub_ne_zero]
  have hlt : Real.exp (-1) < 1 := by
    rw [Real.exp_lt_one_iff]
    norm_num
  intro h
  rw [← h] at hlt
  exact lt_irrefl _ hlt

lemma valve_lift_a1 (L T : ℝ) : (ValveLift.new L T).a1 = 12 * L / T ^ 2 := by
  simp only [ValveLift.new]
  ring

lemma valve_lift_b1 (L T : ℝ) : (ValveLift.new L T).b1 = -(6 * L / T ^ 2) := by
  simp only [ValveLift.new]
  ring

lemma valve_lift_b2 (L T : ℝ) (hT : T ≠ 0) :
    (ValveLift.new L T).b2 = 6 * L / T := by
  simp only [ValveLift.new]
  field_simp
  ring

lemma valve_lift_b3 (L T : ℝ) (hT : T ≠ 0) :
    (ValveLift.new L T).b3 = -(L / 2) := by
  simp only [ValveLift.new]
  field_simp
  ring

lemma valve_lift_c1 (L T : ℝ) : (ValveLift.new L T).c1 = 12 * L / T ^ 2 := by
  simp only [ValveLift.new]
  ring

lemma valve_lift_c2 (L T : ℝ) (hT : T ≠ 0) :
    (ValveLift.new L T).c2 = -(24 * L / T) := by
  simp only [ValveLift.new]
  field_simp
  ring

lemma valve_lift_c3 (L T : ℝ) (hT : T ≠ 0) :
    (ValveLift.new L T).c3 = 12 * L := by
  simp only [ValveLift.new]
  field_simp
  ring

lemma valve_lift_i0 (L T : ℝ) : (ValveLift.new L T).interval0 = T / 6 := by
  simp only [ValveLift.new]
  ring

lemma valve_lift_i1 (L T : ℝ) : (ValveLift.new L T).interval1 = 5 * T / 6 := by
  simp only [ValveLift.new]
  ring

/-- C7: for every `L > 0` and open duration `T > 0`, the
piecewise-quadratic profile built by `ValveLift::new` (acceleration ratio
`-2.0`, segment boundaries `T/6`, `5T/6`) is continuous on `[0, T]`,
vanishes at angle `0`, attains the value `L = max_lift/diameter` at the
peak angle `T/2`, and never exceeds `L` on `[0, T]`. -/
theorem C7_valve_lift_profile (L T : ℝ) (hL : 0 < L) (hT : 0 < T) :
    ContinuousOn (ValveLift.new L T).calc_lift (Set.Icc 0 T) ∧
    (ValveLift.new L T).calc_lift 0 = 0 ∧
    (ValveLift.new L T).calc_lift (T / 2) = L ∧
    ∀ θ ∈ Set.Icc (0 : ℝ) T, (ValveLift.new L T).calc_lift θ ≤ L := by
  have hT0 : T ≠ 0 := ne_of_gt hT
  have hT2 : (0 : ℝ) < T ^ 2 := by positivity
  have ha1 := valve_lift_a1 L T
  have hb1 := valve_lift_b1 L T
  have hb2 := valve_lift_b2 L T hT0
  have hb3 := valve_lift_b3 L T hT0
  have hc1 := valve_lift_c1 L T
  have hc2 := valve_lift_c2 L T hT0
  have hc3 := valve_lift_c3 L T hT0
  have hi0 := valve_lift_i0 L T
  have hi1 := valve_lift_i1 L T
  have hfun : (ValveLift.new L T).calc_lift = fun angle : ℝ =>
      if angle ≤ T / 6 then 12 * L / T ^ 2 * angle * angle
      else if 5 * T / 6 ≤ angle then
        12 * L / T ^ 2 * angle * angle + -(24 * L / T) * angle + 12 * L
      else
        -(6 * L / T ^ 2) * angle * angle + 6 * L / T * angle + -(L / 2) := by
    funext angle
    simp only [ValveLift.calc_lift, ha1, hb1, hb2, hb3, hc1, hc2, hc3, hi0,
      hi1, ge_iff_le]
  constructor
  · rw [hfun]
    apply Continuous.continuousOn
    apply Continuous.if_le
    · fun_prop
    · apply Continuous.if_le
      · fun_prop
      · fun_prop
      · fun_prop
      · fun_prop
      · intro x hx
        rw [← hx]
        field_simp
        ring
    · fun_prop
    · fun_prop
    · intro x hx
      rw [hx]
      rw [if_neg (by intro hcon; nlinarith)]
      field_simp
      ring
  refine ⟨?_, ?_, ?_⟩
  · simp only [hfun]
    rw [if_pos (by positivity)]
    ring
  · simp only [hfun]
    have h1 : ¬ (T / 2 ≤ T / 6) := by intro hcon; nlinarith
    have h2 : ¬ (5 * T / 6 ≤ T / 2) := by intro hcon; nlinarith
    rw [if_neg h1, if_neg h2]
    field_simp
    ring
  · intro θ hθ
    obtain ⟨hθ0, hθT⟩ := hθ
    simp only [hfun]
    split_ifs with h1 h2
    · have hsq : θ * θ ≤ T / 6 * (T / 6) :=
        mul_le_mul h1 h1 hθ0 (by positivity)
      have hsq' := mul_le_mul_of_nonneg_left hsq hL.le
      rw [div_mul_eq_mul_div, div_mul_eq_mul_div, div_le_iff hT2]
      nlinarith [hsq']
    · have key : 12 * L / T ^ 2 * θ * θ + -(24 * L / T) * θ + 12 * L
          = 12 * L / T ^ 2 * (θ - T) ^ 2 := by
        field_simp
        ring
      rw [key]
      have hsq : (θ - T) ^ 2 ≤ (T / 6) ^ 2 := by nlinarith
      calc 12 * L / T ^ 2 * (θ - T) ^ 2
          ≤ 12 * L / T ^ 2 * (T / 6) ^ 2 := by
            apply mul_le_mul_of_nonneg_left hsq
            positivity
        _ ≤ L := by
            rw [div_mul_eq_mul_div, div_le_iff hT2]
            nlinarith
    · have key : -(6 * L / T ^ 2) * θ * θ + 6 * L / T * θ + -(L / 2)
          = L - 6 * L / T ^ 2 * (θ - T / 2) ^ 2 := by
        field_simp
        ring
      rw [key]
      have : 0 ≤ 6 * L / T ^ 2 * (θ - T / 2) ^ 2 := by positivity
      linarith

/-- Witness for C7 at `L = 0.3`, `T = 240`. -/
theorem C7_valve_lift_profile_witness :
    (0 : ℝ) < 0.3 ∧ (0 : ℝ) < 240 ∧
    (ContinuousOn (ValveLift.new 0.3 240).calc_lift (Set.Icc 0 240) ∧
      (ValveLift.new 0.3 240).calc_lift 0 = 0 ∧
      (ValveLift.new 0.3 240).calc_lift (240 / 2) = 0.3 ∧
      ∀ θ ∈ Set.Icc (0 : ℝ) 240, (ValveLift.new 0.3 240).calc_lift θ ≤ 0.3) :=
  ⟨by norm_num, by norm_num,
    C7_valve_lift_profile 0.3 240 (by norm_num) (by norm_num)⟩


/-- Tags for the two kinds of control volumes `System::advance` touches
(`ObjectType::ZeroDim` and `ObjectType::Cylinder` in `src/lib.rs`). -/
inductive ObjType
  | zeroDim
  | cylinder

/-- Behaviour of a zero-dimensional element (`src/core/traits.rs`
`ZeroDim`): report state, integrate by `dt` consuming the stored flow,
and fold the per-connector flows it receives into a stored flow. -/
structure ZDModel (σ : Type) where
  get_state : σ → BasicProperties
  advance : σ → FlowRatio → ℝ → σ
  combine : List (String × FlowRatio) → FlowRatio

/-- Behaviour of a connector (`src/core/traits.rs` `Connector`): a name,
`update_flow_ratio` from the endpoint states, and `get_flow_ratio` per
endpoint name. -/
structure ConnModel (γ : Type) where
  name : γ → String
  update_flow_ratio : γ → List BasicProperties → ℝ → γ
  get_flow_ratio : γ → String → FlowRatio

/-- The `System` object graph of `src/core/system.rs`, with the index
tables resolved at build time.  Each control volume is a pair of its
abstract state and its stored (previous-step) total flow; collections are
index functions (the `Vec`s of the source with total lookup). -/
structure SystemS (σ κ γ : Type) where
  num_zero_dim : ℕ
  zero_dim : ℕ → σ × FlowRatio
  num_cyl : ℕ
  cylinders : ℕ → κ × FlowRatio
  num_connector : ℕ
  connector : ℕ → γ
  connector_objects_index : ℕ → List (ObjType × ℕ)
  zero_dim_connectors_index : ℕ → List ℕ
  engine_connectors_index : ℕ → List ℕ

/-- `System::advance(dt)`, in the exact order of the source: (1) advance
every `ZeroDim` element, (2) advance the engine (every cylinder), (3)
recompute every connector's flow from the freshly integrated endpoint
states, (4) store the connectors' new flows into the `ZeroDim` elements,
(5) store them into the engine's cylinders. -/
def SystemS.advance {σ κ γ : Type} (Z : ZDModel σ) (K : ZDModel κ)
    (C : ConnModel γ) (S : SystemS σ κ γ) (dt : ℝ) : SystemS σ κ γ :=
  let zd1 : ℕ → σ × FlowRatio :=
    fun i => (Z.advance (S.zero_dim i).1 (S.zero_dim i).2 dt, (S.zero_dim i).2)
  let cy1 : ℕ → κ × FlowRatio :=
    fun i => (K.advance (S.cylinders i).1 (S.cylinders i).2 dt, (S.cylinders i).2)
  let conns : ℕ → γ := fun j =>
    C.update_flow_ratio (S.connector j)
      ((S.connector_objects_index j).map (fun oi =>
        match oi.1 with
        | ObjType.zeroDim => Z.get_state (zd1 oi.2).1
        | ObjType.cylinder => K.get_state (cy1 oi.2).1)) dt
  let zd2 : ℕ → σ × FlowRatio := fun i =>
    ((zd1 i).1,
      Z.combine ((S.zero_dim_connectors_index i).map (fun j =>
        (C.name (conns j),
          C.get_flow_ratio (conns j) (Z.get_state (zd1 i).1).name))))
  let cy2 : ℕ → κ × FlowRatio := fun i =>
    ((cy1 i).1,
      K.combine ((S.engine_connectors_index i).map (fun j =>
        (C.name (conns j),
          C.get_flow_ratio (conns j) (K.get_state (cy1 i).1).name))))
  { S with zero_dim := zd2, cylinders := cy2, connector := conns }

/-- The post-integration states of one `advance` call, before any flow is
rewritten: every control volume advanced with its previously stored flow. -/
def SystemS.integrated {σ κ γ : Type} (Z : ZDModel σ) (K : ZDModel κ)
    (S : SystemS σ κ γ) (dt : ℝ) : (ℕ → σ) × (ℕ → κ) :=
  (fun i => Z.advance (S.zero_dim i).1 (S.zero_dim i).2 dt,
   fun i => K.advance (S.cylinders i).1 (S.cylinders i).2 dt)

/-- C2: in every `System::advance(dt)` call, all control volumes
(zero-dimensional elements and engine cylinders) are integrated using only
the flows stored *before* the call (the previous step's flows); every
connector then recomputes its flow from the freshly integrated endpoint
states; the new flows are only then written into the elements' stored flow
fields; and consequently the integration of the *next* `advance` call
consumes exactly the flows computed during this call — flow computed at
step n affects only step n+1. -/
theorem C2_staggered_update {σ κ γ : Type} (Z : ZDModel σ) (K : ZDModel κ)
    (C : ConnModel γ) (S : SystemS σ κ γ) (dt : ℝ) :
    (∀ i, ((S.advance Z K C dt).zero_dim i).1 =
        Z.advance (S.zero_dim i).1 (S.zero_dim i).2 dt) ∧
    (∀ i, ((S.advance Z K C dt).cylinders i).1 =
        K.advance (S.cylinders i).1 (S.cylinders i).2 dt) ∧
    (∀ j, (S.advance Z K C dt).connector j =
        C.update_flow_ratio (S.connector j)
          ((S.connector_objects_index j).map (fun oi =>
            match oi.1 with
            | ObjType.zeroDim => Z.get_state ((S.integrated Z K dt).1 oi.2)
            | ObjType.cylinder => K.get_state ((S.integrated Z K dt).2 oi.2))) dt) ∧
    (∀ i, ((S.advance Z K C dt).zero_dim i).2 =
        Z.combine ((S.zero_dim_connectors_index i).map (fun j =>
          (C.name ((S.advance Z K C dt).connector j),
            C.get_flow_ratio ((S.advance Z K C dt).connector j)
              (Z.get_state ((S.integrated Z K dt).1 i)).name)))) ∧
    (∀ i, ((S.advance Z K C dt).cylinders i).2 =
        K.combine ((S.engine_connectors_index i).map (fun j =>
          (C.name ((S.advance Z K C dt).connector j),
            C.get_flow_ratio ((S.advance Z K C dt).connector j)
              (K.get_state ((S.integrated Z K dt).2 i)).name)))) ∧
    (∀ i, (((S.advance Z K C dt).advance Z K C dt).zero_dim i).1 =
        Z.advance ((S.advance Z K C dt).zero_dim i).1
          ((S.advance Z K C dt).zero_dim i).2 dt) ∧
    (∀ i, (((S.advance Z K C dt).advance Z K C dt).cylinders i).1 =
        K.advance ((S.advance Z K C dt).cylinders i).1
          ((S.advance Z K C dt).cylinders i).2 dt) :=
  ⟨fun _ => rfl, fun _ => rfl, fun _ => rfl, fun _ => rfl, fun _ => rfl,
   fun _ => rfl, fun _ => rfl⟩



/-- One 7-coefficient NASA polynomial record
(`coeffs` of `PolynomInterp` in `src/reaction/json_data.rs`). -/
structure NasaCoeffs where
  c0 : ℝ
  c1 : ℝ
  c2 : ℝ
  c3 : ℝ
  c4 : ℝ
  c5 : ℝ
  c6 : ℝ

/-- `ThermoInterp` from `src/reaction/thermo.rs`: only the switch
temperature `Tmid` and the two coefficient sets survive loading — the
outer validity bounds `Tmin`/`Tmax` of the JSON data are discarded. -/
structure ThermoInterp where
  specie : String
  Tmid : ℝ
  coeffs_low : NasaCoeffs
  coeffs_high : NasaCoeffs

/-- `ThermoProp` from `src/reaction/thermo.rs`. -/
structure ThermoProp where
  P : ℝ
  T : ℝ
  rho : ℝ
  cp : ℝ
  cv : ℝ
  R : ℝ
  k : ℝ
  M : ℝ
  e : ℝ
  h : ℝ
  s : ℝ
  a : ℝ
  mu : ℝ

/-- `ThermoProp::new()`: the all-zero record. -/
def ThermoProp.new : ThermoProp := ⟨0, 0, 0, 0, 0, 0, 0, 0, 0, 0, 0, 0, 0⟩

/-- `ThermoInterp::calc_thermo_properties`: non-dimensional cp, h, s from
one NASA polynomial at temperature `temp`. -/
noncomputable def ThermoInterp.calc_thermo_properties (coeff : NasaCoeffs)
    (temp : ℝ) : ℝ × ℝ × ℝ :=
  let cT0 := coeff.c0
  let cT1 := coeff.c1 * temp
  let cT2 := coeff.c2 * temp ^ 2
  let cT3 := coeff.c3 * temp ^ 3
  let cT4 := coeff.c4 * temp ^ 4
  let cT5 := coeff.c5 / temp
  let cT6 := coeff.c0 * Real.log temp
  (cT0 + cT1 + cT2 + cT3 + cT4,
   cT0 + 0.5 * cT1 + 1.0 / 3.0 * cT2 + 0.25 * cT3 + 0.20 * cT4 + cT5,
   cT6 + cT1 + 0.5 * cT2 + 1.0 / 3.0 * cT3 + 0.25 * cT4 + coeff.c6)

/-- The per-species polynomial-branch selection of `Gas::update_prop`
(`src/reaction/gas.rs` lines 162-172): the low set when `T < Tmid`, the
high set otherwise — no validity-range test exists. -/
noncomputable def ThermoInterp.select_cp_h_s (ti : ThermoInterp) (T : ℝ) :
    ℝ × ℝ × ℝ :=
  if T < ti.Tmid then ThermoInterp.calc_thermo_properties ti.coeffs_low T
  else ThermoInterp.calc_thermo_properties ti.coeffs_high T

/-- `mole_frac.dot(...)` of the source: elementwise product summed. -/
def dotList (xs ys : List ℝ) : ℝ := (List.zipWith (· * ·) xs ys).sum

/-- `Gas` from `src/reaction/gas.rs` (the `species_atoms` map is not used
by any claim and is omitted). -/
structure Gas where
  name : String
  species : List String
  species_molar_weight : List ℝ
  mole_frac : List ℝ
  thermo_interp : List ThermoInterp
  thermo_prop : ThermoProp

/-- The computation of `Gas::update_prop` as a function of exactly the
fields it reads: the molar weights, the mole fractions, the polynomial
table and the current `T` and `P`. -/
noncomputable def Gas.update_prop_calc (weights mole_frac : List ℝ)
    (interp : List ThermoInterp) (T P : ℝ) : ThermoProp :=
  let cp_h_s := interp.map (fun ti => ti.select_cp_h_s T)
  let cp_array := cp_h_s.map (fun t => constants.R * t.1)
  let h_array := cp_h_s.map (fun t => constants.R * T * t.2.1)
  let tmp := mole_frac.map (fun x =>
    if x = 0 then (0 : ℝ) else Real.log (x * P / constants.P_REF))
  let s_array := List.zipWith (fun (t : ℝ × ℝ × ℝ) (l : ℝ) =>
    constants.R * (t.2.2 - l)) cp_h_s tmp
  let cv_array := cp_array.map (fun c => c - constants.R)
  let M := dotList mole_frac weights
  let cp := dotList mole_frac (cp_array.map (· / M))
  let cv := dotList mole_frac (cv_array.map (· / M))
  let h := dotList mole_frac (h_array.map (· / M))
  let s := dotList mole_frac (s_array.map (· / M))
  let Rspec := constants.R / M
  let k := cp / cv
  let rho := P / (Rspec * T)
  let e := h - P / rho
  let a := Real.sqrt (k * Rspec * T)
  let mu := 1.458e-6 * Real.sqrt (T * T * T / (T + 110.4))
  { P := P, T := T, rho := rho, cp := cp, cv := cv, R := Rspec, k := k,
    M := M, e := e, h := h, s := s, a := a, mu := mu }

/-- `Gas::update_prop`: recompute the derived-property record from the
current state. -/
noncomputable def Gas.update_prop (g : Gas) : ThermoProp :=
  Gas.update_prop_calc g.species_molar_weight g.mole_frac g.thermo_interp
    g.thermo_prop.T g.thermo_prop.P

/-- `Gas::TP`: set temperature and pressure, then recompute. -/
noncomputable def Gas.TP (g : Gas) (temp press : ℝ) : Gas :=
  let g1 := { g with thermo_prop := { g.thermo_prop with T := temp, P := press } }
  { g1 with thermo_prop := g1.update_prop }

/-- `Gas::X_array`: set the mole fractions, then recompute.  A sum off `1`
by more than `1e-8` is `std::process::exit`, modelled as `none`. -/
noncomputable def Gas.X_array (g : Gas) (mol_frac : List ℝ) : Option Gas :=
  if |mol_frac.sum - 1.0| > 1e-8 then none
  else
    let g1 := { g with mole_frac := mol_frac }
    some { g1 with thermo_prop := g1.update_prop }

/-- `Gas::TPX_array`: set `T` and `P`, then run `X_array`. -/
noncomputable def Gas.TPX_array (g : Gas) (temp press : ℝ)
    (mol_frac : List ℝ) : Option Gas :=
  let g1 := { g with thermo_prop := { g.thermo_prop with T := temp, P := press } }
  g1.X_array mol_frac

/-- `Gas::break_str_into_X_array` over already-tokenised
`Species:moleFraction` pairs: unknown species or a sum off `1` by more
than `1e-8` aborts (`none`). -/
noncomputable def Gas.break_str_into_X_array (g : Gas)
    (tokens : List (String × ℝ)) : Option (List ℝ) :=
  let X := tokens.foldl (fun acc tok =>
    match acc with
    | none => none
    | some X =>
      match g.species.indexOf? tok.1 with
      | none => none
      | some i => some (X.set i tok.2))
    (some (g.species.map (fun _ => (0 : ℝ))))
  match X with
  | none => none
  | some X => if |X.sum - 1.0| > 1e-8 then none else some X

/-- `Gas::X`: parse the composition, set it, then recompute. -/
noncomputable def Gas.X (g : Gas) (tokens : List (String × ℝ)) : Option Gas :=
  match g.break_str_into_X_array tokens with
  | none => none
  | some X =>
    let g1 := { g with mole_frac := X }
    some { g1 with thermo_prop := g1.update_prop }

/-- `Gas::TPX`: set `T` and `P`, then run `X`. -/
noncomputable def Gas.TPX (g : Gas) (temp press : ℝ)
    (tokens : List (String × ℝ)) : Option Gas :=
  let g1 := { g with thermo_prop := { g.thermo_prop with T := temp, P := press } }
  g1.X tokens



/-- Distributing a dot product over a per-entry constant subtraction:
`X · ((L - c)/M) = X · (L/M) - (c/M)·ΣX` for equal-length lists. -/
lemma dotList_map_sub_div (X L : List ℝ) (c M : ℝ) (h : X.length = L.length) :
    dotList X ((L.map (fun v => v - c)).map (· / M))
      = dotList X (L.map (· / M)) - c / M * X.sum := by
  induction X generalizing L with
  | nil => simp [dotList]
  | cons x xs ih =>
    cases L with
    | nil => simp at h
    | cons l ls =>
      have hlen : xs.length = ls.length := by
        simpa using h
      simp only [List.map_cons, dotList, List.zipWith_cons_cons,
        List.sum_cons] at *
      rw [ih ls hlen]
      ring

/-- The invariants C8 asserts of a `Gas` after a state-updating call: the
stored record is the pure function `update_prop_calc` of the final state,
and the derived quantities satisfy the ideal-gas identities (`cv = cp − R`
requiring an exactly normalised composition of the right length). -/
def derived_props_ok (g : Gas) : Prop :=
  g.thermo_prop = Gas.update_prop_calc g.species_molar_weight g.mole_frac
      g.thermo_interp g.thermo_prop.T g.thermo_prop.P ∧
  g.thermo_prop.M = dotList g.mole_frac g.species_molar_weight ∧
  g.thermo_prop.R = constants.R / g.thermo_prop.M ∧
  (g.mole_frac.sum = 1 → g.mole_frac.length = g.thermo_interp.length →
    g.thermo_prop.cv = g.thermo_prop.cp - g.thermo_prop.R) ∧
  g.thermo_prop.k = g.thermo_prop.cp / g.thermo_prop.cv ∧
  g.thermo_prop.a =
    Real.sqrt (g.thermo_prop.k * g.thermo_prop.R * g.thermo_prop.T) ∧
  g.thermo_prop.rho = g.thermo_prop.P / (g.thermo_prop.R * g.thermo_prop.T)

/-- Any gas whose record was just recomputed by `update_prop` satisfies the
C8 invariants. -/
lemma update_prop_ok (g : Gas) :
    derived_props_ok { g with thermo_prop := g.update_prop } := by
  refine ⟨rfl, rfl, rfl, ?_, rfl, rfl, rfl⟩
  intro hsum hlen
  show dotList g.mole_frac _ = dotList g.mole_frac _ - _
  rw [dotList_map_sub_div _ _ _ _ (by simp [hlen]), hsum]
  rw [mul_one]
  rfl

/-- C8: after every `Gas` state-updating operation (`TP`, `TPX`, `X`,
`X_array`, `TPX_array`), the derived-property record is the pure function
`update_prop_calc` of the final state `(T, P, X)` and the species table,
and it satisfies `M = X·W`, `R = R_universal/M`, `cv = cp − R` (for an
exactly normalised composition of the table's length), `k = cp/cv`,
`a = sqrt(k·R·T)` and `rho = P/(R·T)`. -/
theorem C8_gas_derived_properties :
    (∀ (g : Gas) (t p : ℝ), derived_props_ok (g.TP t p)) ∧
    (∀ (g : Gas) (x : List ℝ) (g' : Gas),
      g.X_array x = some g' → derived_props_ok g') ∧
    (∀ (g : Gas) (t p : ℝ) (x : List ℝ) (g' : Gas),
      g.TPX_array t p x = some g' → derived_props_ok g') ∧
    (∀ (g : Gas) (toks : List (String × ℝ)) (g' : Gas),
      g.X toks = some g' → derived_props_ok g') ∧
    (∀ (g : Gas) (t p : ℝ) (toks : List (String × ℝ)) (g' : Gas),
      g.TPX t p toks = some g' → derived_props_ok g') := by
  have hx : ∀ (g : Gas) (x : List ℝ) (g' : Gas),
      g.X_array x = some g' → derived_props_ok g' := by
    intro g x g' h
    simp only [Gas.X_array] at h
    split_ifs at h
    cases h
    exact update_prop_ok _
  have hxs : ∀ (g : Gas) (toks : List (String × ℝ)) (g' : Gas),
      g.X toks = some g' → derived_props_ok g' := by
    intro g toks g' h
    simp only [Gas.X] at h
    split at h
    · exact Option.noConfusion h
    · cases h
      exact update_prop_ok _
  exact ⟨fun g t p => update_prop_ok _,
    hx,
    fun g t p x g' h => hx _ x g' h,
    hxs,
    fun g t p toks g' h => hxs _ toks g' h⟩

/-- Witness for C8: a one-species air-like table at `T = 300`, `P = 101325`,
`X = [1]`; the conditional hypotheses of the `cv` clause are discharged at
this input. -/
theorem C8_gas_derived_properties_witness :
    derived_props_ok (Gas.TP ⟨"air", ["N2"], [28.0], [1],
      [⟨"N2", 1000, ⟨3.5, 0, 0, 0, 0, 0, 0⟩, ⟨3.5, 0, 0, 0, 0, 0, 0⟩⟩],
      ThermoProp.new⟩ 300 101325) ∧
    (Gas.TP ⟨"air", ["N2"], [28.0], [1],
      [⟨"N2", 1000, ⟨3.5, 0, 0, 0, 0, 0, 0⟩, ⟨3.5, 0, 0, 0, 0, 0, 0⟩⟩],
      ThermoProp.new⟩ 300 101325).thermo_prop.cv
      = (Gas.TP ⟨"air", ["N2"], [28.0], [1],
      [⟨"N2", 1000, ⟨3.5, 0, 0, 0, 0, 0, 0⟩, ⟨3.5, 0, 0, 0, 0, 0, 0⟩⟩],
      ThermoProp.new⟩ 300 101325).thermo_prop.cp
        - (Gas.TP ⟨"air", ["N2"], [28.0], [1],
      [⟨"N2", 1000, ⟨3.5, 0, 0, 0, 0, 0, 0⟩, ⟨3.5, 0, 0, 0, 0, 0, 0⟩⟩],
      ThermoProp.new⟩ 300 101325).thermo_prop.R :=
  ⟨C8_gas_derived_properties.1 _ 300 101325,
    (C8_gas_derived_properties.1 _ 300 101325).2.2.2.1 (by simp [Gas.TP])
      (by simp [Gas.TP])⟩



/-- C9 (amended): gas property evaluation never checks the polynomials'
validity ranges — the outer bounds are already absent from `ThermoInterp`.
For every temperature the low set is used when `T < Tmid` and the high set
otherwise, and `Gas::TP` always returns the record recomputed from that
selection: evaluation outside the JSON validity ranges extrapolates the
polynomial silently instead of aborting (only the load-time continuity
checks at `Tmid` are fatal). -/
theorem C9_no_range_check :
    (∀ (ti : ThermoInterp) (T : ℝ), T < ti.Tmid →
      ti.select_cp_h_s T =
        ThermoInterp.calc_thermo_properties ti.coeffs_low T) ∧
    (∀ (ti : ThermoInterp) (T : ℝ), ¬ T < ti.Tmid →
      ti.select_cp_h_s T =
        ThermoInterp.calc_thermo_properties ti.coeffs_high T) ∧
    (∀ (g : Gas) (t p : ℝ),
      (g.TP t p).thermo_prop =
        Gas.update_prop_calc g.species_molar_weight g.mole_frac
          g.thermo_interp t p) := by
  refine ⟨?_, ?_, fun g t p => rfl⟩
  · intro ti T h
    simp [ThermoInterp.select_cp_h_s, h]
  · intro ti T h
    simp [ThermoInterp.select_cp_h_s, h]

/-- Witness for C9 at a concrete species and the out-of-range temperature
`20000 K` (`Tmid = 1000`). -/
theorem C9_no_range_check_witness :
    ¬ (20000 : ℝ) < (1000 : ℝ) ∧
    ThermoInterp.select_cp_h_s ⟨"N2", 1000, ⟨3.5, 0, 0, 0, 0, 0, 0⟩,
        ⟨4, 0, 0, 0, 0, 0, 0⟩⟩ 20000 =
      ThermoInterp.calc_thermo_properties ⟨4, 0, 0, 0, 0, 0, 0⟩ 20000 :=
  ⟨by norm_num,
    C9_no_range_check.2.1 ⟨"N2", 1000, ⟨3.5, 0, 0, 0, 0, 0, 0⟩,
      ⟨4, 0, 0, 0, 0, 0, 0⟩⟩ 20000 (by norm_num)⟩

/-- Gas used by the C9 counterexample: one species whose JSON polynomial
ranges are low `[300, 1000]` and high `[1000, 5000]` (constant
polynomials `cp/R = 3.5` and `cp/R = 4`); only `Tmid = 1000` reaches
`ThermoInterp`, the bounds `300` and `5000` are discarded at load. -/
noncomputable def gasCE9 : Gas :=
  ⟨"demo", ["N2"], [1], [1],
    [⟨"N2", 1000, ⟨3.5, 0, 0, 0, 0, 0, 0⟩, ⟨4, 0, 0, 0, 0, 0, 0⟩⟩],
    ThermoProp.new⟩

/-- Counterexample for C9 as stated: evaluating at `T = 20000 K`, far above
the high range's upper bound `5000 K`, is not fatal — `Gas::TP` returns an
ordinary record whose `cp` is the high polynomial extrapolated to
`20000 K` (`cp = 4·R_universal` for molar mass 1), and the stored
temperature is `20000`. -/
theorem C9_counterexample :
    (5000 : ℝ) < 20000 ∧
    (gasCE9.TP 20000 101325).thermo_prop.cp = 4 * constants.R ∧
    (gasCE9.TP 20000 101325).thermo_prop.T = 20000 := by
  refine ⟨by norm_num, ?_, rfl⟩
  simp only [Gas.TP, Gas.update_prop, Gas.update_prop_calc, gasCE9,
    ThermoInterp.select_cp_h_s, ThermoInterp.calc_thermo_properties, dotList]
  norm_num
  ring



/-- `gas.P()` accessor. -/
noncomputable def Gas.P (g : Gas) : ℝ := g.thermo_prop.P

/-- `gas.T()` accessor. -/
noncomputable def Gas.T (g : Gas) : ℝ := g.thermo_prop.T

/-- `gas.R()` accessor (mass-specific gas constant). -/
noncomputable def Gas.R (g : Gas) : ℝ := g.thermo_prop.R

/-- `gas.k()` accessor (`cp/cv`). -/
noncomputable def Gas.k (g : Gas) : ℝ := g.thermo_prop.k

/-- `ode_solvers::rk4_step` from `src/numerics/ode_solvers.rs`,
specialised to the two-component state vector the `Reservoir` uses
(note the source feeds `t`, not `t + step`, to `k4`). -/
noncomputable def ode.rk4_step (f : ℝ → ℝ × ℝ → List ℝ → ℝ × ℝ)
    (x : ℝ × ℝ) (c : List ℝ) (t : ℝ) (step : ℝ) : ℝ × ℝ :=
  let tmp := step / 2.0
  let tmp_2 := tmp + t
  let k1 := f t x c
  let k2 := f tmp_2 (x.1 + k1.1 * tmp, x.2 + k1.2 * tmp) c
  let k3 := f tmp_2 (x.1 + k2.1 * tmp, x.2 + k2.2 * tmp) c
  let k4 := f t (x.1 + k3.1 * step, x.2 + k3.2 * step) c
  (x.1 + step / 6.0 * (k1.1 + 2.0 * k2.1 + 2.0 * k3.1 + k4.1),
   x.2 + step / 6.0 * (k1.2 + 2.0 * k2.2 + 2.0 * k3.2 + k4.2))

/-- `Reservoir` from `src/zero_dim/reservoir.rs` (the `store_data` buffer
carries no semantics for the claims and is omitted). -/
structure Reservoir where
  name : String
  gas : Gas
  volume : ℝ
  mass : ℝ
  flow_ratio : FlowRatio

/-- `Reservoir::new`: rejects a non-positive volume and stores the initial
mass as the source computes it: `gas.P() / (volume * gas.R() * gas.T())`. -/
noncomputable def Reservoir.new (name : String) (gas : Gas) (volume : ℝ) :
    Option Reservoir :=
  if volume ≤ 0.0 then none
  else some ⟨name, gas, volume, gas.P / (volume * gas.R * gas.T), FlowRatio.new⟩

/-- `Reservoir::advance`: one RK4 step of `(T, m)` driven by the stored
flow, then the new pressure as the source computes it:
`mass * gas.R() * temp * volume`. -/
noncomputable def Reservoir.advance (r : Reservoir) (dt : ℝ) : Reservoir :=
  let cv := r.gas.R / (r.gas.k - 1.0)
  let cv_inv := 1.0 / cv
  let system_equations := fun (_ : ℝ) (x : ℝ × ℝ) (_ : List ℝ) =>
    (cv_inv / x.2 *
        (r.flow_ratio.enthalpy_flow - cv * x.1 * r.flow_ratio.mass_flow),
      r.flow_ratio.mass_flow)
  let integrated := ode.rk4_step system_equations (r.gas.T, r.mass) [] 0.0 dt
  let temp := integrated.1
  let mass := integrated.2
  let press := mass * r.gas.R * temp * r.volume
  { r with gas := r.gas.TP temp press, mass := mass }

/-- Gas used by the C10 failing input: a single species of molar mass 1
with constant polynomials, set to `T = 300 K`, `P = 101325 Pa`. -/
noncomputable def gasC10 : Gas :=
  Gas.TP ⟨"demo", ["N2"], [1], [1],
    [⟨"N2", 1000, ⟨3.5, 0, 0, 0, 0, 0, 0⟩, ⟨3.5, 0, 0, 0, 0, 0, 0⟩⟩],
    ThermoProp.new⟩ 300 101325

/-- The reservoir `Reservoir::new "chamber" gasC10 2` builds. -/
noncomputable def resC10 : Reservoir :=
  ⟨"chamber", gasC10, 2, gasC10.P / (2 * gasC10.R * gasC10.T), FlowRatio.new⟩

/-- C10 (code bug): at the failing input — a 2 m³ reservoir of ideal gas at
`T = 300 K`, `P = 101325 Pa` — the ideal-gas relation `P·V = m·R·T` holds
neither after construction nor after `advance`: `Reservoir::new` computes
`m = P/(V·R·T)` instead of `m = P·V/(R·T)`, and `Reservoir::advance`
recomputes `P = m·R·T·V` instead of `P = m·R·T/V` (the volume sits on the
wrong side of both formulas; they cancel only for `V = 1`). -/
theorem C10_reservoir_ideal_gas_violated :
    Reservoir.new "chamber" gasC10 2 = some resC10 ∧
    resC10.gas.P * resC10.volume ≠ resC10.mass * resC10.gas.R * resC10.gas.T ∧
    (resC10.advance (1 / 1000)).gas.P * (resC10.advance (1 / 1000)).volume ≠
      (resC10.advance (1 / 1000)).mass * (resC10.advance (1 / 1000)).gas.R *
        (resC10.advance (1 / 1000)).gas.T := by
  have hR : gasC10.R = constants.R := by
    simp [gasC10, Gas.R, Gas.TP, Gas.update_prop, Gas.update_prop_calc,
      dotList]
  have hP : gasC10.P = 101325 := rfl
  have hT : gasC10.T = 300 := rfl
  refine ⟨?_, ?_, ?_⟩
  · rw [Reservoir.new, if_neg (by norm_num)]
    rfl
  · simp only [resC10, hR, hP, hT]
    norm_num [constants.R]
  · have hadv : resC10.advance (1 / 1000) =
        { resC10 with
          gas := resC10.gas.TP 300 (resC10.mass * resC10.gas.R * 300 * 2),
          mass := resC10.mass } := by
      simp only [Reservoir.advance, ode.rk4_step, resC10, FlowRatio.new,
        mul_zero, zero_mul, sub_zero, add_zero, zero_add, hT]
    rw [hadv]
    simp only [Reservoir.advance, Gas.P, Gas.T, Gas.R, Gas.TP,
      Gas.update_prop, Gas.update_prop_calc, resC10, gasC10, dotList]
    norm_num [constants.R]



/-- The control state of the `advance_to_steady_state` loop in
`src/core/system.rs` (`time`, `total_angle`, `cycle`, the iteration
counter, the recorded cycle start, and whether one of the two `break`s has
fired). -/
structure SteadyState where
  time : ℝ
  total_angle : ℝ
  cycle : ℕ
  iterations_counter : ℕ
  cycle_start : ℕ
  halted : Bool

/-- One iteration of the `advance_to_steady_state` loop for a system with
an engine and no one-dimensional elements: the fixed step is
`(0.1°, in radians) / sec_to_rad`; the cycle counter wraps `total_angle`
at `4π` and the loop breaks when `cycle > max_cycles = 10` or when
`time > max_time = 5.0` (checked before the `advance` call of that
iteration). -/
noncomputable def steadyStep (sec_to_rad : ℝ) (s : SteadyState) : SteadyState :=
  if s.halted then s
  else
    let step := 0.10 * Real.pi / 180.0 / sec_to_rad
    let ta := s.total_angle + step * sec_to_rad
    if ta > 4 * Real.pi then
      let ta2 := ta - 4 * Real.pi
      let cycle2 := s.cycle + 1
      if cycle2 > 10 then
        { s with total_angle := ta2, cycle := cycle2, halted := true }
      else if s.time > 5.0 then
        { s with
          total_angle := ta2
          cycle := cycle2
          cycle_start := s.iterations_counter
          halted := true }
      else
        { time := s.time + step
          total_angle := ta2
          cycle := cycle2
          iterations_counter := s.iterations_counter + 1
          cycle_start := s.iterations_counter
          halted := false }
    else if s.time > 5.0 then
      { s with total_angle := ta, halted := true }
    else
      { s with
        time := s.time + step
        total_angle := ta
        iterations_counter := s.iterations_counter + 1 }

/-- The loop run for `n` iterations from the reset state. -/
noncomputable def steadyRun (sec_to_rad : ℝ) (n : ℕ) : SteadyState :=
  (steadyStep sec_to_rad)^[n] ⟨0.0, 0.0, 0, 0, 0, false⟩

/-- Cycle counter after `n` non-halting iterations (one wrap each 7200
iterations of 0.1° = one 720° cycle). -/
def cfun (n : ℕ) : ℕ := if n = 0 then 0 else (n - 1) / 7200

/-- `total_angle` after `n` non-halting iterations, in units of 0.1°. -/
def afun (n : ℕ) : ℕ := if n = 0 then 0 else (n - 1) % 7200 + 1



lemma SteadyState.ext_eq (a b : SteadyState) (h1 : a.time = b.time)
    (h2 : a.total_angle = b.total_angle) (h3 : a.cycle = b.cycle)
    (h4 : a.iterations_counter = b.iterations_counter)
    (h5 : a.cycle_start = b.cycle_start) (h6 : a.halted = b.halted) :
    a = b := by
  cases a
  cases b
  simp_all

lemma afun_le (n : ℕ) : afun n ≤ 7200 := by
  unfold afun
  split_ifs <;> first | contradiction | omega

lemma afun_eq_7200 (n : ℕ) (h : 7200 < afun n + 1) : afun n = 7200 := by
  unfold afun at h ⊢
  split_ifs at h ⊢ with hz
  · omega
  · have := Nat.mod_lt (n - 1) (show 0 < 7200 by norm_num)
    omega

lemma afun_facts (n : ℕ) (h : afun n = 7200) : n ≠ 0 ∧ n % 7200 = 0 := by
  unfold afun at h
  split_ifs at h with hz
  exact ⟨hz, by omega⟩

lemma cfun_not_gt (n : ℕ) (hn : n ≤ 79199) (hne : n ≠ 0) (hm : n % 7200 = 0) :
    ¬ (cfun n + 1 > 10) := by
  unfold cfun
  split_ifs <;> first | contradiction | omega

lemma afun_succ_wrap (n : ℕ) (hne : n ≠ 0) (hm : n % 7200 = 0) :
    afun (n + 1) = 1 := by
  unfold afun
  split_ifs <;> first | contradiction | omega

lemma cfun_succ_wrap (n : ℕ) (hne : n ≠ 0) (hm : n % 7200 = 0) :
    cfun (n + 1) = cfun n + 1 := by
  unfold cfun
  split_ifs <;> first | contradiction | omega

lemma cfun_start_wrap (n : ℕ) (hne : n ≠ 0) (hm : n % 7200 = 0) :
    7200 * cfun (n + 1) = n := by
  unfold cfun
  split_ifs <;> first | contradiction | omega

lemma afun_succ_nowrap (n : ℕ) (h : ¬ 7200 < afun n + 1) :
    afun (n + 1) = afun n + 1 := by
  unfold afun at h ⊢
  split_ifs at h ⊢ <;> first | contradiction | omega

lemma cfun_succ_nowrap (n : ℕ) (h : ¬ 7200 < afun n + 1) :
    cfun (n + 1) = cfun n := by
  unfold afun at h
  unfold cfun
  split_ifs at h ⊢ <;> first | contradiction | omega

/-- Closed form of the steady-state loop state for engine speeds of at
least 28 rad/s (so the 5-second budget never binds within 11 cycles):
after `n ≤ 79200` iterations the loop has not halted, has advanced
`n` steps of 0.1°, and has completed `cfun n` full `4π` cycles. -/
lemma steadyRun_closed (ω : ℝ) (hω : 28 ≤ ω) :
    ∀ n : ℕ, n ≤ 79200 →
    steadyRun ω n =
      ⟨(n : ℝ) * (0.10 * Real.pi / 180.0 / ω),
       (afun n : ℝ) * (0.10 * Real.pi / 180.0),
       cfun n, n, 7200 * cfun n, false⟩ := by
  have hω0 : ω ≠ 0 := ne_of_gt (lt_of_lt_of_le (by norm_num) hω)
  have hπlt : Real.pi < 3.15 := Real.pi_lt_315
  set u := 0.10 * Real.pi / 180.0 with hu_def
  have hu : (0 : ℝ) < u := by
    rw [hu_def]
    positivity
  have hstep : u / ω * ω = u := div_mul_cancel₀ _ hω0
  have h4pi : (4 : ℝ) * Real.pi = 7200 * u := by
    rw [hu_def]
    ring
  intro n
  induction n with
  | zero =>
    intro _
    simp only [steadyRun, Function.iterate_zero, id_eq, afun, cfun]
    simp only [SteadyState.mk.injEq]
    norm_num
  | succ n ih =>
    intro hn1
    have hn : n ≤ 79200 := by omega
    have hn' : n ≤ 79199 := by omega
    have htime : (n : ℝ) * (u / ω) ≤ 5.0 := by
      have hb : (n : ℝ) * (u / ω) ≤ 79199 * (0.10 * 3.15 / 180.0 / 28) := by
        apply mul_le_mul
        · exact_mod_cast hn'
        · apply div_le_div (by norm_num) ?_ (by norm_num) hω
          rw [hu_def]
          linarith
        · positivity
        · norm_num
      linarith [hb, show (79199 : ℝ) * (0.10 * 3.15 / 180.0 / 28) ≤ 5.0 by norm_num]
    have hnotime : ¬ ((n : ℝ) * (u / ω) > 5.0) := not_lt.mpr htime
    have hstep' : (steadyStep ω)^[n] (⟨0.0, 0.0, 0, 0, 0, false⟩ : SteadyState)
        = steadyRun ω n := rfl
    rw [steadyRun, Function.iterate_succ_apply', hstep', ih hn]
    simp only [steadyStep, Bool.false_eq_true, if_false, hstep]
    by_cases hwrap : 7200 < afun n + 1
    · have hafun : afun n = 7200 := afun_eq_7200 n hwrap
      obtain ⟨hne0, hmod⟩ := afun_facts n hafun
      have hc1 : (afun n : ℝ) * u + u > 4 * Real.pi := by
        rw [hafun, h4pi]
        push_cast
        linarith
      rw [if_pos hc1]
      rw [if_neg (cfun_not_gt n hn' hne0 hmod), if_neg hnotime]
      have hafun1 := afun_succ_wrap n hne0 hmod
      have hcyc := cfun_succ_wrap n hne0 hmod
      have hcs := cfun_start_wrap n hne0 hmod
      apply SteadyState.ext_eq
      · dsimp only
        push_cast
        ring
      · dsimp only
        rw [h4pi, hafun, hafun1]
        push_cast
        ring
      · dsimp only
        exact hcyc.symm
      · rfl
      · dsimp only
        exact hcs.symm
      · rfl
    · have hlt : afun n + 1 ≤ 7200 := by omega
      have hc1 : ¬ ((afun n : ℝ) * u + u > 4 * Real.pi) := by
        rw [h4pi]
        have hb := mul_le_mul_of_nonneg_right
          (show (afun n : ℝ) + 1 ≤ 7200 by exact_mod_cast hlt) hu.le
        rw [add_mul, one_mul] at hb
        push_neg
        exact hb
      rw [if_neg hc1, if_neg hnotime]
      have hafun1 := afun_succ_nowrap n hwrap
      have hcyc := cfun_succ_nowrap n hwrap
      apply SteadyState.ext_eq
      · dsimp only
        push_cast
        ring
      · dsimp only
        rw [hafun1]
        push_cast
        ring
      · dsimp only
        exact hcyc.symm
      · rfl
      · dsimp only
        rw [hcyc]
      · rfl



/-- The loop halts exactly during iteration 79200 (0-indexed): the step
that completes the 11th full `4π` cycle pushes the cycle counter to 11,
which is the first value exceeding `max_cycles = 10`. -/
lemma steadyRun_halt (ω : ℝ) (hω : 28 ≤ ω) :
    steadyRun ω 79201 =
      ⟨(79200 : ℝ) * (0.10 * Real.pi / 180.0 / ω),
       0.10 * Real.pi / 180.0, 11, 79200, 72000, true⟩ := by
  have hω0 : ω ≠ 0 := ne_of_gt (lt_of_lt_of_le (by norm_num) hω)
  set u := 0.10 * Real.pi / 180.0 with hu_def
  have hu : (0 : ℝ) < u := by
    rw [hu_def]
    positivity
  have hstep : u / ω * ω = u := div_mul_cancel₀ _ hω0
  have h4pi : (4 : ℝ) * Real.pi = 7200 * u := by
    rw [hu_def]
    ring
  have hafun : afun 79200 = 7200 := by
    norm_num [afun]
  have hcfun : cfun 79200 = 10 := by
    norm_num [cfun]
  have hrw : steadyRun ω 79201 = steadyStep ω (steadyRun ω 79200) := by
    rw [steadyRun, steadyRun, Function.iterate_succ_apply']
  rw [hrw, steadyRun_closed ω hω 79200 (le_refl _)]
  simp only [steadyStep, Bool.false_eq_true, if_false, hstep, hafun, hcfun]
  have hc1 : ((7200 : ℕ) : ℝ) * u + u > 4 * Real.pi := by
    rw [h4pi]
    push_cast
    linarith
  rw [if_pos hc1, if_pos (by norm_num : 10 + 1 > 10)]
  apply SteadyState.ext_eq
  · dsimp only
    push_cast
    ring
  · dsimp only
    rw [h4pi]
    push_cast
    ring
  · rfl
  · rfl
  · rfl
  · rfl

/-- C5 (amended): with an engine, no one-dimensional elements, and engine
speed of at least 28 rad/s, `advance_to_steady_state` iterates with the
fixed step `dt = (0.1° in radians)/sec_to_rad`; after 10 full four-stroke
cycles (72000 × 0.1° steps and one more iteration) the loop has *not*
halted — it stops only when its cycle counter exceeds `max_cycles = 10`,
i.e. upon completing the **11th** full `4π` cycle, after 79200 advance
steps of 0.1° = `44π` rad = 11 cycles (the 5-second budget binds first
only at lower speeds). -/
theorem C5_steady_state_budget (ω : ℝ) (hω : 28 ≤ ω) :
    (steadyRun ω 72001).halted = false ∧
    (steadyRun ω 72001).cycle = 10 ∧
    (steadyRun ω 79201).halted = true ∧
    (steadyRun ω 79201).cycle = 11 ∧
    (steadyRun ω 79201).iterations_counter = 79200 ∧
    (steadyRun ω 79201).time = 79200 * (0.10 * Real.pi / 180.0 / ω) ∧
    (79200 : ℝ) * (0.10 * Real.pi / 180.0) = 11 * (4 * Real.pi) := by
  have hclosed := steadyRun_closed ω hω 72001 (by norm_num)
  have hhalt := steadyRun_halt ω hω
  refine ⟨?_, ?_, ?_, ?_, ?_, ?_, by ring⟩
  · rw [hclosed]
  · rw [hclosed]
    norm_num [cfun]
  · rw [hhalt]
  · rw [hhalt]
  · rw [hhalt]
  · rw [hhalt]

/-- Counterexample for C5 as stated: at engine speed 100 rad/s the loop is
still running after 10 full cycles have elapsed (72001 iterations in,
cycle counter 10, not halted), and it finally halts with cycle counter 11
after 79200 advance steps — i.e. after 11 full four-stroke cycles, not 10. -/
theorem C5_counterexample :
    (steadyRun 100 72001).halted = false ∧
    (steadyRun 100 72001).cycle = 10 ∧
    (steadyRun 100 79201).halted = true ∧
    (steadyRun 100 79201).cycle = 11 ∧
    (steadyRun 100 79201).iterations_counter = 79200 := by
  have hclosed := steadyRun_closed 100 (by norm_num) 72001 (by norm_num)
  have hhalt := steadyRun_halt 100 (by norm_num)
  refine ⟨?_, ?_, ?_, ?_, ?_⟩
  · rw [hclosed]
  · rw [hclosed]
    norm_num [cfun]
  · rw [hhalt]
  · rw [hhalt]
  · rw [hhalt]

/-- Witness for C5 at engine speed 100 rad/s. -/
theorem C5_steady_state_budget_witness :
    (28 : ℝ) ≤ 100 ∧
    ((steadyRun 100 72001).halted = false ∧
      (steadyRun 100 72001).cycle = 10 ∧
      (steadyRun 100 79201).halted = true ∧
      (steadyRun 100 79201).cycle = 11 ∧
      (steadyRun 100 79201).iterations_counter = 79200 ∧
      (steadyRun 100 79201).time = 79200 * (0.10 * Real.pi / 180.0 / 100) ∧
      (79200 : ℝ) * (0.10 * Real.pi / 180.0) = 11 * (4 * Real.pi)) :=
  ⟨by norm_num, C5_steady_state_budget 100 (by norm_num)⟩


noncomputable def thrC4 : ℝ := 0.73631077818 * 0.06 * 0.06

noncomputable def cdC4 : ℝ := Valve.default_discharge_coeff 0.3 0.003 thrC4 "forward"

noncomputable def mdotC4 : ℝ := mdot_choked cdC4 thrC4 100000 400 1.3 300

noncomputable def vC4 : Valve :=
  ⟨"valve", 0, 0, 240, 240, 0.06, 0.003, 0.018, ValveLift.new 0.3 240, 0,
    (("cyl", FlowRatio.new), ("amb", FlowRatio.new)), 0.001, ("cyl", "amb")⟩

noncomputable def pCylC4 : BasicProperties :=
  ⟨"cyl", 10000, 500, 0, 0, 1.2, 320, some (2 * Real.pi / 3)⟩

noncomputable def pAmbC4 : BasicProperties :=
  ⟨"amb", 100000, 300, 0, 0, 1.4, 280, none⟩

noncomputable def vC4u : Valve := { vC4 with angle := 120, throat_area := thrC4 }

lemma c4_step1 :
    Valve.update_flow_ratio vC4 pCylC4 pAmbC4 0 =
      Valve.post { vC4 with angle := 120, throat_area := thrC4 }
        pAmbC4 pCylC4 0.3 thrC4 0 := by
  have hdeg : (2 * Real.pi / 3) * (180 / Real.pi) = 120 := by
    field_simp
    ring
  unfold Valve.update_flow_ratio
  show Valve.update_with_crank vC4 pCylC4 pAmbC4 0 (2 * Real.pi / 3) = _
  unfold Valve.update_with_crank
  rw [hdeg]
  simp only [vC4, thrC4, pCylC4, pAmbC4, Valve.is_open, ValveLift.new,
    ValveLift.calc_lift, Valve.calc_throat_area]
  norm_num

lemma c4_choked (cd area : ℝ) :
    mdot_compressible cd area 100000 400 (13 / 10) 300 10000 =
      mdot_choked cd area 100000 400 (13 / 10) 300 := by
  unfold mdot_compressible
  rw [if_neg]
  push_neg
  have h1 : ((2 : ℝ) / (13 / 10 + 1)) = 20 / 23 := by norm_num
  have h2 : ((13 / 10 : ℝ) / (13 / 10 - 1)) = 13 / 3 := by norm_num
  rw [h1, h2]
  have h3 : ((20 / 23 : ℝ)) ^ ((5 : ℕ) : ℝ) ≤ (20 / 23 : ℝ) ^ ((13 : ℝ) / 3) := by
    apply Real.rpow_le_rpow_of_exponent_ge (by norm_num) (by norm_num)
    norm_num
  rw [Real.rpow_natCast] at h3
  have h4 : ((1 : ℝ) / 10) ≤ (20 / 23 : ℝ) ^ (5 : ℕ) := by norm_num
  calc (10000 : ℝ) / 100000 = 1 / 10 := by norm_num
    _ ≤ (20 / 23 : ℝ) ^ (5 : ℕ) := h4
    _ ≤ (20 / 23 : ℝ) ^ ((13 : ℝ) / 3) := h3

noncomputable def vC4' : Valve :=
  { vC4 with
    angle := 120
    throat_area := thrC4
    flow_ratio := (("cyl", ⟨mdotC4, mdotC4 * 1.3 * 300 / (1.3 - 1) * 400⟩),
      ("amb", ⟨-mdotC4, -(mdotC4 * 1.3 * 300 / (1.3 - 1) * 400)⟩))
    backflow_mass := 0.001 }

lemma c4_step2 :
    Valve.post vC4u pAmbC4 pCylC4 0.3 thrC4 0 = some vC4' := by
  show Valve.post { vC4 with angle := 120, throat_area := thrC4 } pAmbC4 pCylC4 0.3 thrC4 0 = some vC4'
  have hs1 : (("cyl" : String) = "amb") = False := eq_false (by decide)
  have hs2 : (("amb" : String) = "amb") = True := eq_true rfl
  have hs3 : (("cyl" : String) = "cyl") = True := eq_true rfl
  simp only [Valve.post, positionK, setK, getK, vC4, vC4', pAmbC4, pCylC4,
    hs1, hs2, hs3, if_true, if_false]
  norm_num [Valve.default_discharge_coeff, Valve.blend_temp, Valve.blend_k, Valve.blend_R, mdotC4, cdC4, thrC4]
  refine ⟨⟨c4_choked _ _, by rw [c4_choked]; ring⟩, c4_choked _ _, by rw [c4_choked]; ring⟩


/-- C4 (amended): whenever `ZeroDimConn.post` succeeds, both posted
enthalpy flows equal `mass_flow * (k*R/(k-1)) * T` of the pure upstream
state, exactly as the claim says; whenever `Valve.post` succeeds, the same
identity holds but with `k`, `R` and `T` the backflow-aware values
`Valve.blend_k`, `Valve.blend_R`, `Valve.blend_temp` - which are the pure
upstream values except when backflow debt is positive and the cylinder is
the downstream endpoint, where they are 50/50 up/down blends. -/
theorem C4_enthalpy_amended :
    (∀ (c : ZeroDimConn) (up down : BasicProperties) (c' : ZeroDimConn),
      up.name ≠ down.name →
      ZeroDimConn.post c up down = some c' →
      c'.flow_ratio.1.enthalpy_flow =
          c'.flow_ratio.1.mass_flow *
            (up.cp_cv * up.gas_const / (up.cp_cv - 1)) * up.temperature ∧
        c'.flow_ratio.2.enthalpy_flow =
          c'.flow_ratio.2.mass_flow *
            (up.cp_cv * up.gas_const / (up.cp_cv - 1)) * up.temperature) ∧
    (∀ (v : Valve) (up down : BasicProperties) (lift_diam thoat_area dt : ℝ)
        (v' : Valve),
      up.name ≠ down.name →
      Valve.post v up down lift_diam thoat_area dt = some v' →
      v'.flow_ratio.1.2.enthalpy_flow =
          v'.flow_ratio.1.2.mass_flow *
            (Valve.blend_k v up down * Valve.blend_R v up down /
              (Valve.blend_k v up down - 1)) * Valve.blend_temp v up down ∧
        v'.flow_ratio.2.2.enthalpy_flow =
          v'.flow_ratio.2.2.mass_flow *
            (Valve.blend_k v up down * Valve.blend_R v up down /
              (Valve.blend_k v up down - 1)) * Valve.blend_temp v up down) := by
  constructor
  · intro c up down c' hne h
    simp only [ZeroDimConn.post] at h
    split at h
    · exact Option.noConfusion h
    · rename_i i heq1
      split at h
      · exact Option.noConfusion h
      · rename_i j heq2
        cases h
        unfold position2 at heq1 heq2
        split_ifs at heq1 with hA hB
        · cases heq1
          split_ifs at heq2 with hC hD
          · exact absurd (hC.symm.trans hA) (Ne.symm hne)
          · cases heq2
            simp only [set2, get2, if_pos rfl]
            norm_num
            constructor <;> ring
        · cases heq1
          split_ifs at heq2 with hC hD
          · cases heq2
            simp only [set2, get2]
            norm_num
            constructor <;> ring
          · exact absurd (hD.symm.trans hB) (Ne.symm hne)
  · intro v up down lift_diam thoat_area dt v' hne h
    simp only [Valve.post] at h
    split at h
    · exact Option.noConfusion h
    · rename_i i heq1
      split at h
      · exact Option.noConfusion h
      · rename_i j heq2
        cases h
        rcases positionK_eq_some _ _ _ heq1 with ⟨rfl, hA⟩ | ⟨rfl, hA⟩
        · rcases positionK_eq_some _ _ _ heq2 with ⟨rfl, hC⟩ | ⟨rfl, hC⟩
          · rw [setK_key1] at hC
            exact absurd (hA.symm.trans hC) hne
          · simp only [setK, getK]
            norm_num
            constructor <;> ring
        · rcases positionK_eq_some _ _ _ heq2 with ⟨rfl, hC⟩ | ⟨rfl, hC⟩
          · simp only [setK, getK]
            norm_num
            constructor <;> ring
          · rw [setK_key2] at hC
            exact absurd (hA.symm.trans hC) hne

lemma mdotC4_pos : 0 < mdotC4 := by
  have hcd : cdC4 = 8044585875 / 12271846303 := by
    norm_num [cdC4, Valve.default_discharge_coeff, thrC4]
  unfold mdotC4 mdot_choked
  rw [hcd]
  unfold thrC4
  have h1 : (0 : ℝ) < Real.sqrt (300 * 400) := Real.sqrt_pos.mpr (by norm_num)
  have h2 : (0 : ℝ) < Real.sqrt (1.3 * (2 / (1.3 + 1)) ^ (((1.3 : ℝ) + 1) / (1.3 - 1))) := by
    apply Real.sqrt_pos.mpr
    have := Real.rpow_pos_of_pos (show (0 : ℝ) < 2 / (1.3 + 1) by norm_num)
      (((1.3 : ℝ) + 1) / (1.3 - 1))
    nlinarith
  positivity

noncomputable def mdotO : ℝ := mdot_compressible 0.8 0.001 200000 350 1.4 287 100000

noncomputable def orifC4 : ZeroDimConn :=
  ZeroDimConn.mk "orif" 0.001 0.8 ("a", "b") (FlowRatio.new, FlowRatio.new)

noncomputable def orifC4' : ZeroDimConn :=
  { orifC4 with
    flow_ratio := (⟨-mdotO, -(mdotO * 1.4 * 287 / (1.4 - 1) * 350)⟩,
      ⟨mdotO, mdotO * 1.4 * 287 / (1.4 - 1) * 350⟩) }

noncomputable def pOA : BasicProperties :=
  BasicProperties.mk "a" 200000 350 0 0 1.4 287 none

noncomputable def pOB : BasicProperties :=
  BasicProperties.mk "b" 100000 300 0 0 1.3 290 none

lemma c4_orif_post : ZeroDimConn.post orifC4 pOA pOB = some orifC4' := by
  have hs1 : (("a" : String) = "a") = True := eq_true rfl
  have hs2 : (("a" : String) = "b") = False := eq_false (by decide)
  simp only [ZeroDimConn.post, position2, set2, get2, orifC4, orifC4', pOA, pOB,
    mdotO, hs1, hs2, if_true, if_false]
  norm_num
  constructor <;> ring

/-- C4 counterexample: for the open exhaust valve `vC4u` with positive
backflow debt and the cylinder downstream, the posted cylinder-side
enthalpy flow is `mass_flow * cp * T` of the 50/50 *blended* state
(`cp*T = 1300*400`), not of the pure upstream ambient state
(`cp*T = 980*300`), and the mass flow is nonzero. -/
theorem C4_counterexample :
    Valve.update_flow_ratio vC4 pCylC4 pAmbC4 0 = some vC4' ∧
    vC4'.flow_ratio.1.2.mass_flow ≠ 0 ∧
    vC4'.flow_ratio.1.2.enthalpy_flow ≠
      vC4'.flow_ratio.1.2.mass_flow *
        (pAmbC4.cp_cv * pAmbC4.gas_const / (pAmbC4.cp_cv - 1)) * pAmbC4.temperature := by
  refine ⟨c4_step1.trans c4_step2, ne_of_gt mdotC4_pos, ?_⟩
  intro h
  have hq : mdotC4 * 1.3 * 300 / (1.3 - 1) * 400 =
      mdotC4 * (1.4 * 280 / (1.4 - 1)) * 300 := h
  have hp := mdotC4_pos
  ring_nf at hq
  nlinarith [hp, hq]

/-- Witness for C4: both parts of the amended theorem applied at concrete
inputs (the orifice `orifC4` between reservoirs `a`/`b`, and the valve
`vC4u` in the blending regime). -/
theorem C4_enthalpy_amended_witness :
    (pOA.name ≠ pOB.name ∧
      orifC4'.flow_ratio.1.enthalpy_flow =
        orifC4'.flow_ratio.1.mass_flow *
          (pOA.cp_cv * pOA.gas_const / (pOA.cp_cv - 1)) * pOA.temperature) ∧
    (pAmbC4.name ≠ pCylC4.name ∧
      vC4'.flow_ratio.1.2.enthalpy_flow =
        vC4'.flow_ratio.1.2.mass_flow *
          (Valve.blend_k vC4u pAmbC4 pCylC4 * Valve.blend_R vC4u pAmbC4 pCylC4 /
            (Valve.blend_k vC4u pAmbC4 pCylC4 - 1)) *
          Valve.blend_temp vC4u pAmbC4 pCylC4) := by
  have hne1 : pOA.name ≠ pOB.name := by
    intro h
    exact absurd h (by decide)
  have hne2 : pAmbC4.name ≠ pCylC4.name := by
    intro h
    exact absurd h (by decide)
  exact ⟨⟨hne1, (C4_enthalpy_amended.1 orifC4 pOA pOB orifC4' hne1 c4_orif_post).1⟩,
    hne2, (C4_enthalpy_amended.2 vC4u pAmbC4 pCylC4 0.3 thrC4 0 vC4' hne2 c4_step2).1⟩

end Lmb
